import Mathlib

/-!
Shallow embedding of the client-side event consumer / state machine of the
TestLab-AI frontend (`Index.tsx`): the `runEventDrivenPipeline` event
callback, the terminal-result callback, and the `handlePlay` /
`handleRetryAgent` / `handleSkipAgent` actions.

Modelling conventions:
* JSON objects whose precise contents the client only passes around are
  association lists `Obj` of string keys to opaque values `JVal`; the JS
  object spread `\x7b...a, ...b\x7d` is `spreadMerge a b`.
* JS truthiness is modelled explicitly where the code branches on it:
  an absent field is `none`; a present string is falsy iff empty
  (`strTruthy`); a present array or object is always truthy.
* React `useState` setters become functional record updates on a single
  `ClientState`; the UI-only side effects (`addLog` wall-clock text,
  `toast`) are not part of the state.
* Network side effects are reified as an `Effect` value returned next to
  the state, so that which operation a handler invokes is provable.
-/

/-- One annotation entry of an improved file, mirroring
`annotations: Array<{line: number; type: string; comment: string}>`. -/
structure Annot where
  line : Nat
  type : String
  comment : String
deriving DecidableEq, Repr

/-- One improved-file record, mirroring the element type of the
`improvedFiles` state in `Index.tsx`. -/
structure ImprovedFile where
  pipeline_id : String
  file_path : String
  original_code : String
  improved_code : String
  diff : String
  annotations : List Annot
  summary : String
deriving DecidableEq, Repr

/-- Opaque JSON value: either an atomic value rendered as a string, or an
array of improved-file records (the only structured value the client ever
inspects inside a payload object). -/
inductive JVal where
  | str (s : String)
  | files (fs : List ImprovedFile)
deriving DecidableEq, Repr

/-- A JSON object as an association list, insertion-ordered like a JS object. -/
abbrev Obj := List (String × JVal)

/-- JS object spread `\x7b...a, ...b\x7d`: keys of `a` in order with values
overridden by `b` where present, then the keys of `b` that are new. -/
def spreadMerge (a b : Obj) : Obj :=
  a.map (fun kv =>
    match b.find? (fun kv2 => kv2.1 == kv.1) with
    | some kv2 => kv2
    | none => kv)
  ++ b.filter (fun kv2 => !(a.any (fun kv => kv.1 == kv2.1)))

/-- JS truthiness of an optional string: absent and `""` are falsy. -/
def strTruthy : Option String → Bool
  | none => false
  | some s => s ≠ ""

/-- JS `a || d` for an optional string `a` and default `d`. -/
def jsOr (a : Option String) (d : String) : String :=
  match a with
  | none => d
  | some s => if s = "" then d else s

/-- Event status values of the wire protocol
(`status: "started"|"processing"|"success"|"failed"`). -/
inductive Status where
  | started
  | processing
  | success
  | failed
deriving DecidableEq, Repr

/-- Per-step status values of the `stepStatuses` record in `Index.tsx`. -/
inductive StepStatus where
  | pending
  | processing
  | completed
  | error
deriving DecidableEq, Repr

/-- The fields of an agent event payload that `runEventDrivenPipeline` reads,
plus `extra` for the remaining fields (they matter only through the object
spread into the overview). -/
structure Payload where
  improved_files : Option (List ImprovedFile)
  improved_code : Option String
  original_code : Option String
  run_id : Option String
  baseline_metrics : Option JVal
  improved_metrics : Option JVal
  message : Option String
  extra : Obj
deriving DecidableEq, Repr

/-- The payload rendered back as a JSON object, for the spread
`\x7b...prev.overview, ...event.payload\x7d`. -/
def Payload.toObj (p : Payload) : Obj :=
  (match p.improved_files with | some fs => [("improved_files", JVal.files fs)] | none => [])
  ++ (match p.improved_code with | some s => [("improved_code", JVal.str s)] | none => [])
  ++ (match p.original_code with | some s => [("original_code", JVal.str s)] | none => [])
  ++ (match p.run_id with | some s => [("run_id", JVal.str s)] | none => [])
  ++ (match p.baseline_metrics with | some v => [("baseline_metrics", v)] | none => [])
  ++ (match p.improved_metrics with | some v => [("improved_metrics", v)] | none => [])
  ++ (match p.message with | some s => [("message", JVal.str s)] | none => [])
  ++ p.extra

/-- A progress event, mirroring the `AgentEvent` wire shape
`\x7bagent, status, timestamp, payload?, error?\x7d`. -/
structure AgentEvent where
  agent : String
  status : Status
  timestamp : String
  payload : Option Payload
  error : Option String
deriving DecidableEq, Repr

/-- The `ml_improvement` section of the terminal response, with the fields
the terminal callback reads. -/
structure MLImprovement where
  improved_files : Option (List ImprovedFile)
  improved_code : Option String
  original_code : Option String
deriving DecidableEq, Repr

/-- The terminal `PipelineResponse`, with the fields the terminal callback
reads. -/
structure PipelineResponse where
  run_id : Option String
  overview : Option Obj
  pipeline_json : Option Obj
  improved_code : Option (List ImprovedFile)
  ml_improvement : Option MLImprovement
deriving DecidableEq, Repr

/-- Network operations a handler can invoke, reified: starting a whole
pipeline run (`apiClient.runPipelineEventDriven`), or the Coordinator-side
per-stage `retry` / `skip` operations that the spec describes. The code in
`Index.tsx` calls no per-stage endpoint, so only the first two are ever
produced by the embedded handlers. -/
inductive Effect where
  | noEffect
  | startPipeline
  | coordinatorRetry (agent : String)
  | coordinatorSkip (agent : String)
deriving DecidableEq, Repr

/-- The client state held in `Index.tsx` `useState` hooks, restricted to the
fields the event-driven pipeline logic reads or writes. `hasPipelineData`
models `pipelineData !== null`; the three `realtime*` fields are the
`realtimeData` object's `overview`, `pipeline_json` and `improved_code`
keys (its `logs` key is never written by this code). -/
structure ClientState where
  isRunning : Bool
  isPaused : Bool
  currentStep : Nat
  failedAgent : Option String
  stepStatuses : List (String × StepStatus)
  improvedCode : String
  pipelineResult : Option PipelineResponse
  realtimeOverview : Option Obj
  realtimePipelineJson : Option Obj
  realtimeImprovedCode : Option (List ImprovedFile)
  improvedFiles : List ImprovedFile
  hasPipelineData : Bool
deriving DecidableEq, Repr

/-- `Record<string, _>` update `\x7b...prev, [k]: v\x7d`: override in place
when the key exists, append otherwise. -/
def recordSet (m : List (String × StepStatus)) (k : String) (v : StepStatus) :
    List (String × StepStatus) :=
  if m.any (fun p => p.1 == k) then
    m.map (fun p => if p.1 == k then (k, v) else p)
  else m ++ [(k, v)]

/-- Lookup in a `Record<string, _>`. -/
def recordGet (m : List (String × StepStatus)) (k : String) : Option StepStatus :=
  (m.find? (fun p => p.1 == k)).map (fun p => p.2)

/-- The fixed client step order of `runEventDrivenPipeline`. -/
def stepOrder : List String :=
  ["server", "coordinator", "ingest_agent", "diagnosis_agent",
   "ml_improvement_agent", "eval_agent", "planner_agent"]

/-- JS `Array.indexOf` returning `none` for `-1`. -/
def indexOf? (a : String) : List String → Option Nat
  | [] => none
  | x :: xs => if x == a then some 0 else (indexOf? a xs).map (· + 1)

/-- The step-status update at the top of the event callback:
`stepStatuses[agent] := success ↦ completed | failed ↦ error | _ ↦ processing`. -/
def eventStepStatus : Status → StepStatus
  | .success => .completed
  | .failed => .error
  | _ => .processing

/-- The legacy-format improved file built inline in the event callback when
`payload.improved_code` is present without `payload.improved_files`. -/
def legacyFileOfPayload (p : Payload) : ImprovedFile :=
  { pipeline_id := jsOr p.run_id "unknown"
    file_path := "models/legacy_model.py"
    original_code := jsOr p.original_code "# Original code not available"
    improved_code := (p.improved_code).getD ""
    diff := "# Diff will be generated"
    annotations := [{ line := 15, type := "add", comment := "Legacy format improvements" }]
    summary := "Legacy improvements applied" }

/-- The payload-extraction block of the event callback (the
`if (event.payload)` body): improved-files extraction for
`ml_improvement_agent` successes, then the overview merge when the payload
carries baseline or improved metrics. -/
def applyPayload (s : ClientState) (e : AgentEvent) : ClientState :=
  match e.payload with
  | none => s
  | some p =>
    let s :=
      if e.agent == "ml_improvement_agent" && e.status == .success then
        match p.improved_files with
        | some fs =>
          let s := { s with improvedFiles := fs, realtimeImprovedCode := some fs }
          match fs with
          | f :: _ => { s with improvedCode := f.improved_code }
          | [] => s
        | none =>
          if strTruthy p.improved_code then
            let legacyFile := legacyFileOfPayload p
            { s with improvedFiles := [legacyFile],
                     realtimeImprovedCode := some [legacyFile],
                     improvedCode := (p.improved_code).getD "" }
          else s
      else s
    if (p.baseline_metrics).isSome || (p.improved_metrics).isSome then
      let merged := spreadMerge ((s.realtimeOverview).getD []) p.toObj
      { s with realtimeOverview := some merged }
    else s

/-- The event callback of `runEventDrivenPipeline`: status-map update,
cursor advance on `success`/`failed` for agents in the step order, early
return on `failed` (recording the failed agent and stopping the run), then
payload extraction. -/
def onAgentEvent (s : ClientState) (e : AgentEvent) : ClientState :=
  let s := { s with stepStatuses := recordSet s.stepStatuses e.agent (eventStepStatus e.status) }
  let s :=
    if e.status == .success || e.status == .failed then
      match indexOf? e.agent stepOrder with
      | some i => { s with currentStep := i + 1 }
      | none => s
    else s
  if e.status == .failed then
    { s with failedAgent := some e.agent, isRunning := false }
  else
    applyPayload s e

/-- The legacy-format improved file built inline in the terminal callback
when `result.ml_improvement.improved_code` is present without the array
forms. -/
def legacyFileOfResult (r : PipelineResponse) (m : MLImprovement) : ImprovedFile :=
  { pipeline_id := jsOr r.run_id "unknown"
    file_path := "models/legacy_model.py"
    original_code := jsOr m.original_code "# Original code not available"
    improved_code := (m.improved_code).getD ""
    diff := "# Diff will be generated"
    annotations := [{ line := 15, type := "add", comment := "Legacy format improvements" }]
    summary := "Legacy improvements applied" }

/-- The terminal-result callback of `runEventDrivenPipeline`: store the
result, set the cursor to the end, stop the run, clear the failed agent,
replace each realtime field present in the result, then extract improved
files by the three-way precedence `result.improved_code` ≻
`result.ml_improvement.improved_files` ≻ legacy
`result.ml_improvement.improved_code`. -/
def onPipelineResult (s : ClientState) (r : PipelineResponse) : ClientState :=
  let s := { s with pipelineResult := some r, currentStep := stepOrder.length,
                    isRunning := false, failedAgent := none }
  let s := match r.overview with
    | some o => { s with realtimeOverview := some o }
    | none => s
  let s := match r.pipeline_json with
    | some o => { s with realtimePipelineJson := some o }
    | none => s
  let s := match r.improved_code with
    | some fs => { s with realtimeImprovedCode := some fs }
    | none => s
  match r.improved_code with
  | some (f :: fs) =>
    { s with improvedFiles := f :: fs, improvedCode := f.improved_code }
  | _ =>
    match r.ml_improvement with
    | none => s
    | some m =>
      match m.improved_files with
      | some fs =>
        let s := { s with improvedFiles := fs }
        match fs with
        | f :: _ => { s with improvedCode := f.improved_code }
        | [] => s
      | none =>
        if strTruthy m.improved_code then
          let legacyFile := legacyFileOfResult r m
          { s with improvedFiles := [legacyFile],
                   improvedCode := (m.improved_code).getD "" }
        else s

/-- The synchronous reset prefix of `runEventDrivenPipeline` (before the
streaming call is issued). -/
def resetForRun (s : ClientState) : ClientState :=
  { s with isRunning := true, currentStep := 0, stepStatuses := [],
           improvedCode := "", pipelineResult := none, failedAgent := none,
           realtimeOverview := none, realtimePipelineJson := none,
           realtimeImprovedCode := none, improvedFiles := [] }

/-- `handlePlay`: no-op without parsed pipeline data; at cursor 0 it starts
the event-driven pipeline (whose body performs `resetForRun`); otherwise it
only resumes the running flags. -/
def handlePlay (s : ClientState) : ClientState × Effect :=
  if !s.hasPipelineData then (s, .noEffect)
  else if s.currentStep == 0 then (resetForRun s, .startPipeline)
  else ({ s with isRunning := true, isPaused := false }, .noEffect)

/-- `handleRetryAgent`: guarded on a truthy failed agent and pipeline data;
clears `failedAgent`, then delegates to `handlePlay` (the code's comment:
a real implementation would call a retry endpoint; for now it restarts the
whole pipeline). -/
def handleRetryAgent (s : ClientState) : ClientState × Effect :=
  if !(strTruthy s.failedAgent) || !s.hasPipelineData then (s, .noEffect)
  else handlePlay { s with failedAgent := none }

/-- `handleSkipAgent`: guarded on a truthy failed agent; clears
`failedAgent`, marks the run running and advances the cursor by one,
invoking nothing. -/
def handleSkipAgent (s : ClientState) : ClientState × Effect :=
  if !(strTruthy s.failedAgent) then (s, .noEffect)
  else ({ s with failedAgent := none, isRunning := true,
                 currentStep := s.currentStep + 1 }, .noEffect)

/-- A fresh client state as initialised by the `useState` hooks (with
pipeline data already parsed, as `handlePlay` requires). -/
def initialState : ClientState :=
  { isRunning := false, isPaused := false, currentStep := 0,
    failedAgent := none, stepStatuses := [], improvedCode := "",
    pipelineResult := none, realtimeOverview := none,
    realtimePipelineJson := none, realtimeImprovedCode := none,
    improvedFiles := [], hasPipelineData := true }


theorem find?_map_override (k : String) (v : StepStatus) :
    ∀ (m : List (String × StepStatus)), m.any (fun p => p.1 == k) = true →
    (m.map (fun p => if p.1 == k then (k, v) else p)).find? (fun p => p.1 == k)
      = some (k, v)
  | [], h => by simp at h
  | p :: ps, h => by
    rw [List.map_cons]
    by_cases hp : p.1 = k
    · have hb : (p.1 == k) = true := beq_iff_eq.mpr hp
      rw [if_pos hb]
      exact List.find?_cons_of_pos _ (by simp)
    · have hb : ¬((p.1 == k) = true) := fun hc => hp (beq_iff_eq.mp hc)
      have h' : ps.any (fun q => q.1 == k) = true := by
        rw [List.any_cons] at h
        rcases (Bool.or_eq_true _ _).mp h with h1 | h2
        · exact absurd h1 hb
        · exact h2
      rw [if_neg hb,
        @List.find?_cons_of_neg _ (fun q => q.1 == k) p _ hb]
      exact find?_map_override k v ps h'

theorem recordGet_recordSet_self (m : List (String × StepStatus)) (k : String)
    (v : StepStatus) : recordGet (recordSet m k v) k = some v := by
  unfold recordSet recordGet
  by_cases h : m.any (fun p => p.1 == k) = true
  · rw [if_pos h, find?_map_override k v m h]
    rfl
  · rw [if_neg h]
    have hfind : m.find? (fun p => p.1 == k) = none := by
      rw [List.find?_eq_none]
      intro x hx hxk
      exact h (List.any_eq_true.mpr ⟨x, hx, hxk⟩)
    rw [List.find?_append, hfind, Option.none_or,
      List.find?_cons_of_pos _ (by simp)]
    rfl

theorem applyPayload_frame (s : ClientState) (e : AgentEvent) :
    (applyPayload s e).stepStatuses = s.stepStatuses ∧
    (applyPayload s e).currentStep = s.currentStep ∧
    (applyPayload s e).failedAgent = s.failedAgent ∧
    (applyPayload s e).isRunning = s.isRunning ∧
    (applyPayload s e).isPaused = s.isPaused ∧
    (applyPayload s e).pipelineResult = s.pipelineResult ∧
    (applyPayload s e).realtimePipelineJson = s.realtimePipelineJson ∧
    (applyPayload s e).hasPipelineData = s.hasPipelineData := by
  unfold applyPayload
  rcases e.payload with _ | p
  · simp
  · dsimp only
    repeat' split
    all_goals simp

theorem applyPayload_overview_no_metrics (s : ClientState) (e : AgentEvent)
    (p : Payload) (hp : e.payload = some p) (hb : p.baseline_metrics = none)
    (hi : p.improved_metrics = none) :
    (applyPayload s e).realtimeOverview = s.realtimeOverview := by
  unfold applyPayload
  rw [hp]
  dsimp only
  rw [hb, hi, if_neg (by simp)]
  repeat' split
  all_goals simp

theorem applyPayload_overview_metrics (s : ClientState) (e : AgentEvent)
    (p : Payload) (hp : e.payload = some p)
    (h : ((p.baseline_metrics).isSome || (p.improved_metrics).isSome) = true) :
    (applyPayload s e).realtimeOverview =
      some (spreadMerge ((s.realtimeOverview).getD []) p.toObj) := by
  unfold applyPayload
  rw [hp]
  dsimp only
  rw [if_pos h]
  repeat' split
  all_goals simp

theorem applyPayload_improved_other (s : ClientState) (e : AgentEvent)
    (ha : (e.agent == "ml_improvement_agent" && e.status == Status.success) = false) :
    (applyPayload s e).improvedFiles = s.improvedFiles ∧
    (applyPayload s e).improvedCode = s.improvedCode ∧
    (applyPayload s e).realtimeImprovedCode = s.realtimeImprovedCode := by
  unfold applyPayload
  rcases e.payload with _ | p
  · simp
  · dsimp only
    rw [ha]
    repeat' split
    all_goals simp_all

theorem applyPayload_stepStatuses (s : ClientState) (e : AgentEvent) :
    (applyPayload s e).stepStatuses = s.stepStatuses := (applyPayload_frame s e).1

theorem applyPayload_currentStep (s : ClientState) (e : AgentEvent) :
    (applyPayload s e).currentStep = s.currentStep := (applyPayload_frame s e).2.1

theorem applyPayload_failedAgent (s : ClientState) (e : AgentEvent) :
    (applyPayload s e).failedAgent = s.failedAgent := (applyPayload_frame s e).2.2.1

theorem applyPayload_isRunning (s : ClientState) (e : AgentEvent) :
    (applyPayload s e).isRunning = s.isRunning := (applyPayload_frame s e).2.2.2.1

/-! ### Concrete runs used as witnesses and counterexamples -/

/-- An event with a fixed timestamp (the client never branches on it). -/
def mkEvent (a : String) (st : Status) (p : Option Payload) : AgentEvent :=
  { agent := a, status := st, timestamp := "2026-01-01T00:00:00Z",
    payload := p, error := none }

/-- A payload with every recognised field absent. -/
def emptyPayload : Payload :=
  { improved_files := none, improved_code := none, original_code := none,
    run_id := none, baseline_metrics := none, improved_metrics := none,
    message := none, extra := [] }

/-- Scenario A up to the Improve stage: server, coordinator, ingest and
diagnosis succeed. -/
def scenarioAPrefix : ClientState :=
  [mkEvent "server" .success none, mkEvent "coordinator" .success none,
   mkEvent "ingest_agent" .success none,
   mkEvent "diagnosis_agent" .success none].foldl onAgentEvent
    (resetForRun initialState)

/-- The Scenario A failure event: the Improve stage fails. -/
def improveFailed : AgentEvent :=
  { agent := "ml_improvement_agent", status := .failed,
    timestamp := "2026-01-01T00:00:05Z", payload := none,
    error := some "model unavailable" }

/-! ### C1 -/

/-- C1 is false on the code: in Scenario A the step cursor is 4 after the
diagnosis success, and applying the `failed` event for
`ml_improvement_agent` changes it (to 5) instead of freezing it. -/
theorem c1_cursor_frozen_on_failed_cex :
    scenarioAPrefix.currentStep = 4 ∧
    (onAgentEvent scenarioAPrefix improveFailed).currentStep ≠
      scenarioAPrefix.currentStep := by decide

/-- C1 (amended): the client step cursor advances on `success` and on
`failed` events alike: applying a `failed` event for a stage in the step
order sets the cursor to that stage's index plus one (so in Scenario A the
failed Improve event moves the cursor from 4 to 5), records the failed
stage, and stops the run. -/
theorem c1_failed_event_advances_cursor (s : ClientState) (e : AgentEvent)
    (i : Nat) (hst : e.status = .failed)
    (hidx : indexOf? e.agent stepOrder = some i) :
    (onAgentEvent s e).currentStep = i + 1 ∧
    (onAgentEvent s e).failedAgent = some e.agent ∧
    (onAgentEvent s e).isRunning = false := by
  unfold onAgentEvent
  simp only [hst, hidx]
  simp

/-- C1 witness: the amended statement at the Scenario A run. -/
theorem c1_failed_event_advances_cursor_witness :
    (onAgentEvent scenarioAPrefix improveFailed).currentStep = 4 + 1 ∧
    (onAgentEvent scenarioAPrefix improveFailed).failedAgent =
      some "ml_improvement_agent" ∧
    (onAgentEvent scenarioAPrefix improveFailed).isRunning = false :=
  c1_failed_event_advances_cursor scenarioAPrefix improveFailed 4 rfl (by decide)

/-! ### C9 -/

/-- C9: applying a `failed` event never modifies the partial composite:
improved files, improved code and the realtime overview, pipeline JSON and
improved-code data are exactly what they were before the event; the handler
only records the failed agent and marks the run not running. -/
theorem c9_failed_event_preserves_composite (s : ClientState) (e : AgentEvent)
    (hst : e.status = .failed) :
    (onAgentEvent s e).improvedFiles = s.improvedFiles ∧
    (onAgentEvent s e).improvedCode = s.improvedCode ∧
    (onAgentEvent s e).realtimeOverview = s.realtimeOverview ∧
    (onAgentEvent s e).realtimePipelineJson = s.realtimePipelineJson ∧
    (onAgentEvent s e).realtimeImprovedCode = s.realtimeImprovedCode ∧
    (onAgentEvent s e).pipelineResult = s.pipelineResult ∧
    (onAgentEvent s e).failedAgent = some e.agent ∧
    (onAgentEvent s e).isRunning = false := by
  unfold onAgentEvent
  simp only [hst]
  repeat' split
  all_goals simp_all

/-- C9 witness: the statement at the Scenario A failure. -/
theorem c9_failed_event_preserves_composite_witness :
    (onAgentEvent scenarioAPrefix improveFailed).improvedFiles =
      scenarioAPrefix.improvedFiles ∧
    (onAgentEvent scenarioAPrefix improveFailed).realtimeOverview =
      scenarioAPrefix.realtimeOverview ∧
    (onAgentEvent scenarioAPrefix improveFailed).improvedCode =
      scenarioAPrefix.improvedCode :=
  ⟨(c9_failed_event_preserves_composite scenarioAPrefix improveFailed rfl).1,
   (c9_failed_event_preserves_composite scenarioAPrefix improveFailed rfl).2.2.1,
   (c9_failed_event_preserves_composite scenarioAPrefix improveFailed rfl).2.1⟩

/-! ### C10 -/

/-- C10: an event whose agent is not in the step order leaves the cursor
unchanged (the negative-index guard), while the step-status map still gains
or updates an entry keyed by that agent name. -/
theorem c10_unknown_agent_cursor_frozen (s : ClientState) (e : AgentEvent)
    (h : indexOf? e.agent stepOrder = none) :
    (onAgentEvent s e).currentStep = s.currentStep ∧
    recordGet (onAgentEvent s e).stepStatuses e.agent =
      some (eventStepStatus e.status) := by
  unfold onAgentEvent
  simp only [h]
  repeat' split
  all_goals simp_all [applyPayload_currentStep, applyPayload_stepStatuses,
    recordGet_recordSet_self]

/-- C10 witness: a success event for an agent name outside the step order. -/
theorem c10_unknown_agent_cursor_frozen_witness :
    (onAgentEvent initialState (mkEvent "mystery_agent" .success none)).currentStep
      = initialState.currentStep ∧
    recordGet
      (onAgentEvent initialState (mkEvent "mystery_agent" .success none)).stepStatuses
      "mystery_agent" = some (eventStepStatus .success) :=
  c10_unknown_agent_cursor_frozen initialState
    (mkEvent "mystery_agent" .success none) (by decide)

/-! ### C8 -/

/-- C8 is false on the code: a `processing` event for a stage that was
never `started` is not ignored — on a fresh run it adds a `processing`
entry for that stage to the step-status map, changing the state. -/
theorem c8_processing_ignored_cex :
    recordGet (resetForRun initialState).stepStatuses "eval_agent" = none ∧
    onAgentEvent (resetForRun initialState) (mkEvent "eval_agent" .processing none)
      ≠ resetForRun initialState ∧
    recordGet
      (onAgentEvent (resetForRun initialState)
        (mkEvent "eval_agent" .processing none)).stepStatuses "eval_agent"
      = some .processing := by decide

/-- C8 (amended): the client never checks whether a stage was `started`:
applying a `processing` event for a stage with no recorded status does not
crash (the transition is total) and does not advance the step cursor, but
the event is not ignored — the stage is recorded as `processing` in the
status map, so the state changes. -/
theorem c8_processing_unstarted_not_ignored (s : ClientState) (e : AgentEvent)
    (hst : e.status = .processing)
    (hns : recordGet s.stepStatuses e.agent = none) :
    (onAgentEvent s e).currentStep = s.currentStep ∧
    recordGet (onAgentEvent s e).stepStatuses e.agent = some .processing ∧
    (onAgentEvent s e).stepStatuses ≠ s.stepStatuses := by
  have hss : (onAgentEvent s e).stepStatuses =
      recordSet s.stepStatuses e.agent StepStatus.processing := by
    unfold onAgentEvent
    simp only [hst]
    simp [applyPayload_stepStatuses, eventStepStatus]
  have hcs : (onAgentEvent s e).currentStep = s.currentStep := by
    unfold onAgentEvent
    simp only [hst]
    simp [applyPayload_currentStep]
  refine ⟨hcs, ?_, ?_⟩
  · rw [hss]
    exact recordGet_recordSet_self _ _ _
  · intro heq
    rw [← heq, hss, recordGet_recordSet_self] at hns
    exact Option.noConfusion hns

/-- C8 witness: the amended statement on a fresh run. -/
theorem c8_processing_unstarted_not_ignored_witness :
    (onAgentEvent (resetForRun initialState)
        (mkEvent "eval_agent" .processing none)).currentStep
      = (resetForRun initialState).currentStep ∧
    recordGet
      (onAgentEvent (resetForRun initialState)
        (mkEvent "eval_agent" .processing none)).stepStatuses "eval_agent"
      = some .processing :=
  ⟨(c8_processing_unstarted_not_ignored (resetForRun initialState)
      (mkEvent "eval_agent" .processing none) rfl (by decide)).1,
   (c8_processing_unstarted_not_ignored (resetForRun initialState)
      (mkEvent "eval_agent" .processing none) rfl (by decide)).2.1⟩

/-! ### C2 -/

/-- The client state of a run halted on a failed ingest stage, with the
failed stage recorded locally. -/
def c2State : ClientState := { initialState with failedAgent := some "ingest_agent" }

/-- A success event for the ingest stage whose payload carries no metric
fields and no improved files, only an unrecognised field. -/
def c2CexEvt : AgentEvent :=
  mkEvent "ingest_agent" .success
    (some { emptyPayload with extra := [("rows", JVal.str "120")] })

/-- C2 is false on the code: a `success` event for the stage named by the
locally recorded failed stage does not clear it, and its payload is not
merged into the partial composite (the overview stays empty although the
payload is non-empty). -/
theorem c2_success_clears_failed_cex :
    (onAgentEvent c2State c2CexEvt).failedAgent = some "ingest_agent" ∧
    (onAgentEvent c2State c2CexEvt).realtimeOverview = none ∧
    (onAgentEvent c2State c2CexEvt).improvedFiles = [] := by decide

/-- C2 (amended): for every `success` event for a stage in the step order,
the stage's status becomes `completed` and the step cursor becomes the
stage's index plus one; but the locally recorded failed stage is never
cleared, and the payload is merged into the overview of the partial
composite only when it carries `baseline_metrics` or `improved_metrics`
(improved files are extracted only from the Improve stage's payloads). -/
theorem c2_success_transition (s : ClientState) (e : AgentEvent) (p : Payload)
    (i : Nat) (hst : e.status = .success) (hp : e.payload = some p)
    (hidx : indexOf? e.agent stepOrder = some i) :
    recordGet (onAgentEvent s e).stepStatuses e.agent = some .completed ∧
    (onAgentEvent s e).currentStep = i + 1 ∧
    (onAgentEvent s e).failedAgent = s.failedAgent ∧
    (p.baseline_metrics = none → p.improved_metrics = none →
      (onAgentEvent s e).realtimeOverview = s.realtimeOverview) ∧
    (((p.baseline_metrics).isSome || (p.improved_metrics).isSome) = true →
      (onAgentEvent s e).realtimeOverview =
        some (spreadMerge ((s.realtimeOverview).getD []) p.toObj)) ∧
    ((e.agent == "ml_improvement_agent") = false →
      (onAgentEvent s e).improvedFiles = s.improvedFiles) := by
  have hform : onAgentEvent s e =
      applyPayload
        { s with
          stepStatuses := recordSet s.stepStatuses e.agent StepStatus.completed,
          currentStep := i + 1 } e := by
    unfold onAgentEvent
    simp only [hst, hidx]
    simp [eventStepStatus]
  rw [hform]
  refine ⟨?_, ?_, ?_, ?_, ?_, ?_⟩
  · rw [applyPayload_stepStatuses]
    exact recordGet_recordSet_self _ _ _
  · rw [applyPayload_currentStep]
  · rw [applyPayload_failedAgent]
  · intro hb hi
    rw [applyPayload_overview_no_metrics _ e p hp hb hi]
  · intro hm
    rw [applyPayload_overview_metrics _ e p hp hm]
  · intro hag
    exact (applyPayload_improved_other _ e (by rw [hag]; rfl)).1

/-- A success event for the ingest stage whose payload carries baseline
metrics. -/
def c2MetricsEvt : AgentEvent :=
  mkEvent "ingest_agent" .success
    (some { emptyPayload with baseline_metrics := some (JVal.str "0.75") })

/-- C2 witness: the amended statement at a metrics-bearing ingest success. -/
theorem c2_success_transition_witness :
    recordGet (onAgentEvent c2State c2MetricsEvt).stepStatuses "ingest_agent"
      = some .completed ∧
    (onAgentEvent c2State c2MetricsEvt).currentStep = 2 + 1 ∧
    (onAgentEvent c2State c2MetricsEvt).failedAgent = c2State.failedAgent ∧
    (onAgentEvent c2State c2MetricsEvt).realtimeOverview =
      some (spreadMerge ((c2State.realtimeOverview).getD [])
        ({ emptyPayload with baseline_metrics := some (JVal.str "0.75") }).toObj) := by
  have h := c2_success_transition c2State c2MetricsEvt
    { emptyPayload with baseline_metrics := some (JVal.str "0.75") } 2
    rfl rfl (by decide)
  exact ⟨h.1, h.2.1, h.2.2.1, h.2.2.2.2.1 (by decide)⟩

/-! ### C5 -/

/-- C5: a legacy Improve-stage payload `\x7bimproved_code: string\x7d` is
accepted and normalised to a one-element improved-files array, both when it
arrives as a progress event for `ml_improvement_agent` and when it arrives
in the terminal result under `ml_improvement.improved_code`; in both cases
the single file's `improved_code` is the legacy string. -/
theorem c5_legacy_improved_code_normalized (s t : ClientState) (e : AgentEvent)
    (p : Payload) (c : String) (r : PipelineResponse) (m : MLImprovement)
    (d : String)
    (he : e.agent = "ml_improvement_agent") (hst : e.status = .success)
    (hp : e.payload = some p) (hnf : p.improved_files = none)
    (hc : p.improved_code = some c) (hcne : c ≠ "")
    (hrc : r.improved_code = none) (hm : r.ml_improvement = some m)
    (hmf : m.improved_files = none) (hmc : m.improved_code = some d)
    (hdne : d ≠ "") :
    (onAgentEvent s e).improvedFiles = [legacyFileOfPayload p] ∧
    (onAgentEvent s e).realtimeImprovedCode = some [legacyFileOfPayload p] ∧
    (onAgentEvent s e).improvedCode = c ∧
    (legacyFileOfPayload p).improved_code = c ∧
    (onPipelineResult t r).improvedFiles = [legacyFileOfResult r m] ∧
    (onPipelineResult t r).improvedCode = d ∧
    (legacyFileOfResult r m).improved_code = d := by
  have htr : strTruthy p.improved_code = true := by
    rw [hc]
    simp [strTruthy, hcne]
  have htr2 : strTruthy m.improved_code = true := by
    rw [hmc]
    simp [strTruthy, hdne]
  have hev : ∀ q : ClientState, applyPayload q e =
      let legacyFile := legacyFileOfPayload p
      let q2 := { q with improvedFiles := [legacyFile],
                         realtimeImprovedCode := some [legacyFile],
                         improvedCode := (p.improved_code).getD "" }
      if (p.baseline_metrics).isSome || (p.improved_metrics).isSome then
        let merged := spreadMerge ((q2.realtimeOverview).getD []) p.toObj
        { q2 with realtimeOverview := some merged }
      else q2 := by
    intro q
    unfold applyPayload
    rw [hp]
    dsimp only
    rw [he, hst, hnf, htr]
    simp
  have hidx : indexOf? e.agent stepOrder = some 4 := by
    rw [he]
    decide
  have hform : onAgentEvent s e =
      applyPayload
        { s with
          stepStatuses := recordSet s.stepStatuses e.agent StepStatus.completed,
          currentStep := 4 + 1 } e := by
    unfold onAgentEvent
    simp only [hst, hidx]
    simp [eventStepStatus]
  refine ⟨?_, ?_, ?_, ?_, ?_, ?_, ?_⟩
  · rw [hform, hev]
    dsimp only
    split <;> simp
  · rw [hform, hev]
    dsimp only
    split <;> simp
  · rw [hform, hev]
    dsimp only
    split <;> simp [hc]
  · simp [legacyFileOfPayload, hc]
  · unfold onPipelineResult
    simp only [hrc, hm, hmf, htr2]
    repeat' split
    all_goals simp_all
  · unfold onPipelineResult
    simp only [hrc, hm, hmf, htr2]
    repeat' split
    all_goals simp_all [hmc]
  · simp [legacyFileOfResult, hmc]

/-- The legacy single-file payload used as witness input. -/
def legacyPayload : Payload := { emptyPayload with improved_code := some "x = 1" }

/-- A legacy-format Improve success event. -/
def legacyEvt : AgentEvent :=
  mkEvent "ml_improvement_agent" .success (some legacyPayload)

/-- A terminal response carrying only the legacy
`ml_improvement.improved_code` string. -/
def legacyResponse : PipelineResponse :=
  { run_id := some "r1", overview := none, pipeline_json := none,
    improved_code := none,
    ml_improvement := some { improved_files := none,
                             improved_code := some "y = 2",
                             original_code := none } }

/-- C5 witness: the statement at concrete legacy-format inputs. -/
theorem c5_legacy_improved_code_normalized_witness :
    (onAgentEvent initialState legacyEvt).improvedFiles =
      [legacyFileOfPayload legacyPayload] ∧
    (onAgentEvent initialState legacyEvt).improvedCode = "x = 1" ∧
    (onPipelineResult initialState legacyResponse).improvedCode = "y = 2" := by
  have h := c5_legacy_improved_code_normalized initialState initialState
    legacyEvt legacyPayload "x = 1" legacyResponse
    { improved_files := none, improved_code := some "y = 2",
      original_code := none } "y = 2"
    rfl rfl rfl rfl rfl (by decide) rfl rfl rfl rfl (by decide)
  exact ⟨h.1, h.2.2.1, h.2.2.2.2.2.1⟩

/-! ### C6 -/

theorem onPipelineResult_overview_present (s : ClientState)
    (r : PipelineResponse) (o : Obj) (h : r.overview = some o) :
    (onPipelineResult s r).realtimeOverview = some o := by
  unfold onPipelineResult
  simp only [h]
  repeat' split
  all_goals simp_all

theorem onPipelineResult_pipeline_json_present (s : ClientState)
    (r : PipelineResponse) (o : Obj) (h : r.pipeline_json = some o) :
    (onPipelineResult s r).realtimePipelineJson = some o := by
  unfold onPipelineResult
  simp only [h]
  repeat' split
  all_goals simp_all

theorem onPipelineResult_improved_code_present (s : ClientState)
    (r : PipelineResponse) (fs : List ImprovedFile)
    (h : r.improved_code = some fs) :
    (onPipelineResult s r).realtimeImprovedCode = some fs := by
  unfold onPipelineResult
  simp only [h]
  repeat' split
  all_goals simp_all

theorem onPipelineResult_files_win (s : ClientState) (r : PipelineResponse)
    (f : ImprovedFile) (fs : List ImprovedFile)
    (h : r.improved_code = some (f :: fs)) :
    (onPipelineResult s r).improvedFiles = f :: fs ∧
    (onPipelineResult s r).improvedCode = f.improved_code := by
  unfold onPipelineResult
  simp only [h]
  all_goals simp_all

theorem onPipelineResult_run_flags (s : ClientState) (r : PipelineResponse) :
    (onPipelineResult s r).isRunning = false ∧
    (onPipelineResult s r).currentStep = stepOrder.length ∧
    (onPipelineResult s r).failedAgent = none ∧
    (onPipelineResult s r).pipelineResult = some r := by
  unfold onPipelineResult
  repeat' split
  all_goals simp_all

/-- C6: applying the terminal result stops the run, clears the failed
agent, moves the cursor to the end and stores the authoritative result;
every realtime-composite field present in the final payload is replaced by
the final value (the final payload wins over folded state), and a
non-empty final `improved_code` array replaces the improved files and the
improved code. -/
theorem c6_terminal_replaces_composite (s : ClientState)
    (r : PipelineResponse) :
    (onPipelineResult s r).isRunning = false ∧
    (onPipelineResult s r).currentStep = stepOrder.length ∧
    (onPipelineResult s r).failedAgent = none ∧
    (onPipelineResult s r).pipelineResult = some r ∧
    (∀ o, r.overview = some o →
      (onPipelineResult s r).realtimeOverview = some o) ∧
    (∀ o, r.pipeline_json = some o →
      (onPipelineResult s r).realtimePipelineJson = some o) ∧
    (∀ fs, r.improved_code = some fs →
      (onPipelineResult s r).realtimeImprovedCode = some fs) ∧
    (∀ f fs, r.improved_code = some (f :: fs) →
      (onPipelineResult s r).improvedFiles = f :: fs ∧
      (onPipelineResult s r).improvedCode = f.improved_code) :=
  ⟨(onPipelineResult_run_flags s r).1, (onPipelineResult_run_flags s r).2.1,
   (onPipelineResult_run_flags s r).2.2.1,
   (onPipelineResult_run_flags s r).2.2.2,
   fun o h => onPipelineResult_overview_present s r o h,
   fun o h => onPipelineResult_pipeline_json_present s r o h,
   fun fs h => onPipelineResult_improved_code_present s r fs h,
   fun f fs h => onPipelineResult_files_win s r f fs h⟩

/-- A sample improved file for witness runs. -/
def sampleFile : ImprovedFile :=
  { pipeline_id := "r1", file_path := "models/cnn_improved.py",
    original_code := "a", improved_code := "b", diff := "d",
    annotations := [{ line := 15, type := "add", comment := "dropout" }],
    summary := "regularization" }

/-- A terminal response with every composite field present. -/
def fullResponse : PipelineResponse :=
  { run_id := some "r1", overview := some [("accuracy", JVal.str "0.9")],
    pipeline_json := some [("nodes", JVal.str "3")],
    improved_code := some [sampleFile], ml_improvement := none }

/-- C6 witness: the statement at the Scenario A prefix state and a full
terminal response. -/
theorem c6_terminal_replaces_composite_witness :
    (onPipelineResult scenarioAPrefix fullResponse).isRunning = false ∧
    (onPipelineResult scenarioAPrefix fullResponse).realtimeOverview =
      some [("accuracy", JVal.str "0.9")] ∧
    (onPipelineResult scenarioAPrefix fullResponse).improvedFiles =
      [sampleFile] := by
  have h := c6_terminal_replaces_composite scenarioAPrefix fullResponse
  exact ⟨h.1, h.2.2.2.2.1 _ rfl, (h.2.2.2.2.2.2.2 sampleFile [] rfl).1⟩

/-! ### C7 -/

/-- C7: applying the terminal result event twice yields exactly the same
client state as applying it once (idempotent replay of the terminal
event). -/
theorem c7_terminal_idempotent (s : ClientState) (r : PipelineResponse) :
    onPipelineResult (onPipelineResult s r) r = onPipelineResult s r := by
  unfold onPipelineResult
  repeat' split
  all_goals simp_all

/-! ### C3 and C4 -/

/-- The Scenario A run halted on the failed Improve stage. -/
def scenarioAHalted : ClientState := onAgentEvent scenarioAPrefix improveFailed

/-- The stream-error callback of `runEventDrivenPipeline`: stops the run
and records the pseudo-agent `pipeline` as failed. -/
def onPipelineError (s : ClientState) : ClientState :=
  { s with isRunning := false, failedAgent := some "pipeline" }

/-- A run that failed before any stage completed (cursor still 0). -/
def earlyFailedState : ClientState := onPipelineError (resetForRun initialState)

/-- C3 is false on the code: on the halted Scenario A run, the retry and
skip actions invoke no Coordinator operation at all — both produce no
network effect (retry merely resumes the running flags because the cursor
is non-zero, and skip only advances the cursor locally). -/
theorem c3_retry_invokes_coordinator_cex :
    strTruthy scenarioAHalted.failedAgent = true ∧
    (handleRetryAgent scenarioAHalted).2 = Effect.noEffect ∧
    (handleSkipAgent scenarioAHalted).2 = Effect.noEffect := by decide

/-- C3 (amended): on a halted run the retry and skip actions clear the
local `failedAgent` optimistically, but they invoke no Coordinator `retry`
or `skip` operation: retry delegates to the play handler (restarting the
whole pipeline when the cursor is 0, otherwise only resuming the running
flags), and skip locally marks the run running and advances the cursor by
one with no network effect. -/
theorem c3_retry_skip_local_only (s : ClientState) (a : String)
    (hf : strTruthy s.failedAgent = true) (hd : s.hasPipelineData = true) :
    (handleRetryAgent s).1.failedAgent = none ∧
    (handleRetryAgent s).2 ≠ Effect.coordinatorRetry a ∧
    (handleRetryAgent s).2 ≠ Effect.coordinatorSkip a ∧
    (handleSkipAgent s).1.failedAgent = none ∧
    (handleSkipAgent s).1.currentStep = s.currentStep + 1 ∧
    (handleSkipAgent s).1.isRunning = true ∧
    (handleSkipAgent s).2 = Effect.noEffect := by
  have h1 : handleRetryAgent s = handlePlay { s with failedAgent := none } := by
    unfold handleRetryAgent
    simp [hf, hd]
  have h2 : handleSkipAgent s =
      ({ s with failedAgent := none, isRunning := true,
                currentStep := s.currentStep + 1 }, Effect.noEffect) := by
    unfold handleSkipAgent
    simp [hf]
  refine ⟨?_, ?_, ?_, by rw [h2], by rw [h2], by rw [h2], by rw [h2]⟩
  · rw [h1]
    unfold handlePlay
    repeat' split
    all_goals simp_all [resetForRun]
  · rw [h1]
    unfold handlePlay
    repeat' split
    all_goals simp_all [resetForRun]
  · rw [h1]
    unfold handlePlay
    repeat' split
    all_goals simp_all [resetForRun]

/-- C3 witness: the amended statement on the halted Scenario A run. -/
theorem c3_retry_skip_local_only_witness :
    (handleRetryAgent scenarioAHalted).1.failedAgent = none ∧
    (handleSkipAgent scenarioAHalted).1.currentStep =
      scenarioAHalted.currentStep + 1 ∧
    (handleSkipAgent scenarioAHalted).2 = Effect.noEffect := by
  have h := c3_retry_skip_local_only scenarioAHalted "ml_improvement_agent"
    (by decide) (by decide)
  exact ⟨h.1, h.2.2.2.2.1, h.2.2.2.2.2.2⟩

/-- C4 is false on the code: with the Scenario A run halted on the Improve
stage, retry re-invokes nothing at all (no network effect); and on a run
failed at cursor 0 retry restarts the whole pipeline instead of the single
failed stage. -/
theorem c4_retry_not_single_stage_cex :
    strTruthy scenarioAHalted.failedAgent = true ∧
    (handleRetryAgent scenarioAHalted).2 = Effect.noEffect ∧
    strTruthy earlyFailedState.failedAgent = true ∧
    (handleRetryAgent earlyFailedState).2 = Effect.startPipeline := by decide

/-- C4 (amended): retry never re-invokes only the failed stage. When the
step cursor is 0 it restarts the entire pipeline, resetting the cursor,
the statuses and all accumulated composite entries; when the cursor is
non-zero it changes only `failedAgent`, `isRunning` and `isPaused`,
leaving the cursor and all previously accumulated composite entries
unchanged but invoking nothing. -/
theorem c4_retry_characterization (s : ClientState) (a : String)
    (hf : strTruthy s.failedAgent = true) (hd : s.hasPipelineData = true) :
    (handleRetryAgent s).2 ≠ Effect.coordinatorRetry a ∧
    (s.currentStep = 0 →
      handleRetryAgent s =
        (resetForRun { s with failedAgent := none }, Effect.startPipeline)) ∧
    (¬ s.currentStep = 0 →
      handleRetryAgent s =
        ({ s with failedAgent := none, isRunning := true, isPaused := false },
          Effect.noEffect)) := by
  have h1 : handleRetryAgent s = handlePlay { s with failedAgent := none } := by
    unfold handleRetryAgent
    simp [hf, hd]
  refine ⟨?_, ?_, ?_⟩
  · rw [h1]
    unfold handlePlay
    repeat' split
    all_goals simp_all
  · intro h0
    rw [h1]
    unfold handlePlay
    simp [hd, h0]
  · intro h0
    rw [h1]
    unfold handlePlay
    simp [hd, h0]

/-- C4 witness: the amended statement on the halted Scenario A run, whose
cursor is 5. -/
theorem c4_retry_characterization_witness :
    (handleRetryAgent scenarioAHalted).2 ≠
      Effect.coordinatorRetry "ml_improvement_agent" ∧
    (handleRetryAgent scenarioAHalted).2 = Effect.noEffect ∧
    (handleRetryAgent scenarioAHalted).1.currentStep =
      scenarioAHalted.currentStep ∧
    (handleRetryAgent scenarioAHalted).1.improvedFiles =
      scenarioAHalted.improvedFiles := by
  have h := c4_retry_characterization scenarioAHalted "ml_improvement_agent"
    (by decide) (by decide)
  have h2 := h.2.2 (by decide)
  exact ⟨h.1, by rw [h2], by rw [h2], by rw [h2]⟩
